import Mathlib

/-!
Verification model of the Prediction-Pipeline repository's validated,
audited mutation pipeline.  Definitions are shallow embeddings of
`src/task1_mysql.py` (tables, stored procedures), `src/api/main.py`
(relational route handlers) and `src/api/main_mongo.py` together with
`src/task1_mongodb/schema.py` (document route handlers and collection
schemas).  Dates are modelled as natural numbers ordered like calendar
dates; SQL VARCHAR columns are modelled as unbounded strings.
-/

namespace PredictionPipeline

/-- A relational `patients` row (table created in `src/task1_mysql.py`):
`patient_id` and `name` are NOT NULL, the remaining columns are nullable. -/
structure PatientRow where
  patient_id : String
  name : String
  age : Option Int
  arrival_date : Option Nat
  departure_date : Option Nat
  service : Option String
  satisfaction : Option Int
deriving DecidableEq, Repr

/-- A relational `staff` row: `staff_id`, `staff_name` NOT NULL; `role`,
`service` nullable. -/
structure StaffRow where
  staff_id : String
  staff_name : String
  role : Option String
  service : Option String
deriving DecidableEq, Repr

/-- A relational `services_weekly` row (ignoring the surrogate id): the
triple (week, month, service) carries a UNIQUE KEY `uix_week_month_service`. -/
structure SWRow where
  week : Nat
  month : Nat
  service : String
  available_beds : Option Int
  patients_request : Option Int
  patients_admitted : Option Int
  patients_refused : Option Int
  patient_satisfaction : Option Int
  staff_morale : Option Int
  event : Option String
deriving DecidableEq, Repr

/-- A row of the append-only `audit_log` table, as written by
`sp_log_change`. -/
structure AuditRecord where
  table_name : String
  row_pk : String
  operation : String
  old_values : Option String
  new_values : Option String
  changed_by : String
deriving DecidableEq, Repr

/-- A row of the append-only `validation_errors` table. -/
structure RejectionRecord where
  table_name : String
  row_pk : String
  error_message : String
  payload : String
deriving DecidableEq, Repr

/-- The relational database state: the four business tables plus the two
append-only log tables. -/
structure MySQLState where
  patients : List PatientRow
  staff : List StaffRow
  services_weekly : List SWRow
  audit_log : List AuditRecord
  validation_errors : List RejectionRecord
deriving DecidableEq, Repr

/-- The empty relational database. -/
def emptyState : MySQLState :=
  { patients := [], staff := [], services_weekly := [],
    audit_log := [], validation_errors := [] }

/-- The parameter list of the stored procedure `sp_insert_patient`
(`p_patient_id` through `p_satisfaction`; `p_user` passed separately). -/
structure PatientParams where
  patient_id : String
  name : String
  age : Option Int
  arrival_date : Option Nat
  departure_date : Option Nat
  service : Option String
  satisfaction : Option Int
deriving DecidableEq, Repr

/-- The row stored by `sp_insert_patient`'s INSERT: the parameters verbatim. -/
def rowOfParams (p : PatientParams) : PatientRow :=
  { patient_id := p.patient_id, name := p.name, age := p.age,
    arrival_date := p.arrival_date, departure_date := p.departure_date,
    service := p.service, satisfaction := p.satisfaction }

/-- `IFNULL(CAST(x AS CHAR), 'null')` for an integer column. -/
def optIntJson : Option Int → String
  | some n => toString n
  | none => "null"

/-- `IFNULL(x, '')` for a nullable string column. -/
def optStrOrEmpty : Option String → String
  | some s => s
  | none => ""

/-- `IFNULL(CAST(d AS CHAR), '')` for a nullable DATE column (the date's
textual form is abstracted to `toString`). -/
def optDateStr : Option Nat → String
  | some d => toString d
  | none => ""

/-- The `v_payload` string built inside `sp_insert_patient`. -/
def spPayload (p : PatientParams) : String :=
  "\x7b" ++ "\"patient_id\":\"" ++ p.patient_id ++ "\"," ++
  "\"name\":\"" ++ p.name ++ "\"," ++
  "\"age\":" ++ optIntJson p.age ++ "," ++
  "\"arrival_date\":\"" ++ optDateStr p.arrival_date ++ "\"," ++
  "\"departure_date\":\"" ++ optDateStr p.departure_date ++ "\"," ++
  "\"service\":\"" ++ optStrOrEmpty p.service ++ "\"," ++
  "\"satisfaction\":" ++ optIntJson p.satisfaction ++ "\x7d"

/-- Serialization of a stored `patients` row in the stored procedure's
payload format. -/
def rowSerialize (r : PatientRow) : String :=
  "\x7b" ++ "\"patient_id\":\"" ++ r.patient_id ++ "\"," ++
  "\"name\":\"" ++ r.name ++ "\"," ++
  "\"age\":" ++ optIntJson r.age ++ "," ++
  "\"arrival_date\":\"" ++ optDateStr r.arrival_date ++ "\"," ++
  "\"departure_date\":\"" ++ optDateStr r.departure_date ++ "\"," ++
  "\"service\":\"" ++ optStrOrEmpty r.service ++ "\"," ++
  "\"satisfaction\":" ++ optIntJson r.satisfaction ++ "\x7d"

/-- The satisfaction check of `sp_insert_patient`: contributes
`satisfaction=<v>` when the value is present and outside [0,100]. -/
def satViolations : Option Int → List String
  | some s => if s < 0 ∨ 100 < s then ["satisfaction=" ++ toString s] else []
  | none => []

/-- The age check of `sp_insert_patient`: contributes `age=<v>` when the
value is present and negative. -/
def ageViolations : Option Int → List String
  | some a => if a < 0 then ["age=" ++ toString a] else []
  | none => []

/-- The rule violations collected by `sp_insert_patient`, in the order the
procedure checks them (satisfaction first, then age). -/
def patientRuleViolations (p : PatientParams) : List String :=
  satViolations p.satisfaction ++ ageViolations p.age

/-- `CONCAT_WS(';', ...)` accumulation starting from `v_err = NULL`:
NULL stays NULL on an empty list, otherwise the parts are joined by `;`. -/
def joinErr : List String → Option String
  | [] => none
  | e :: rest => some (rest.foldl (fun acc x => acc ++ ";" ++ x) e)

/-- The result row returned by `sp_insert_patient`'s final SELECT. -/
inductive SpStatus where
  | validation_failed (msg : String)
  | inserted
deriving DecidableEq, Repr

/-- The stored procedure `sp_insert_patient` (src/task1_mysql.py):
collects rule violations into `v_err`; when non-NULL, appends one
`validation_errors` row and inserts nothing; otherwise inserts the
patient row and calls `sp_log_change('patients', id, 'INSERT', NULL,
payload, user)`. -/
def sp_insert_patient (st : MySQLState) (p : PatientParams) (user : String) :
    SpStatus × MySQLState :=
  match joinErr (patientRuleViolations p) with
  | some e =>
      (.validation_failed e,
       { st with validation_errors := st.validation_errors ++
           [{ table_name := "patients", row_pk := p.patient_id,
              error_message := e, payload := spPayload p }] })
  | none =>
      (.inserted,
       { st with
           patients := st.patients ++ [rowOfParams p],
           audit_log := st.audit_log ++
             [{ table_name := "patients", row_pk := p.patient_id,
                operation := "INSERT", old_values := none,
                new_values := some (spPayload p), changed_by := user }] })

/-- Outcome of an API route handler, covering HTTP 404 (`notFound`),
400 with "No fields to update" (`emptyPatch`), 400 with a schema
validation message (`schemaError`), 400 with a rule message from the
stored procedure (`ruleError`), an uncaught storage-engine error
propagating as a 500 (`storageFailure`), and the success responses. -/
inductive ApiResult where
  | created (key : String)
  | updated (n : Nat)
  | deleted (n : Nat)
  | notFound
  | emptyPatch
  | schemaError
  | ruleError (msg : String)
  | storageFailure
deriving DecidableEq, Repr

/-- Whether an outcome is a business-rule rejection. -/
def ApiResult.isRuleError : ApiResult → Bool
  | .ruleError _ => true
  | _ => false

/-- The pydantic `PatientIn` model of `src/api/main.py` (identical in
`src/api/main_mongo.py`): `name` required, all other fields optional. -/
structure PatientIn where
  name : String
  age : Option Int
  arrival_date : Option Nat
  departure_date : Option Nat
  service : Option String
  satisfaction : Option Int
deriving DecidableEq, Repr

/-- Pydantic validation of `PatientIn`: field constraints (`min_length`,
`max_length`, `ge`, `le`) plus the `validate_dates` field validator, which
compares `departure_date` against the payload's own `arrival_date` only
when both are present. -/
def pydanticPatientInOk (p : PatientIn) : Bool :=
  (1 ≤ p.name.length && p.name.length ≤ 255) &&
  (match p.age with | some a => decide (0 ≤ a) | none => true) &&
  (match p.service with | some s => decide (s.length ≤ 64) | none => true) &&
  (match p.satisfaction with
   | some s => decide (0 ≤ s ∧ s ≤ 100) | none => true) &&
  (match p.departure_date, p.arrival_date with
   | some d, some a => !decide (d < a)
   | _, _ => true)

/-- A pydantic partial-update payload field: the outer `Option` is
key presence (`model_dump(exclude_unset=True)`), the inner `Option` is
an explicit JSON null. -/
abbrev PatchVal (α : Type) := Option (Option α)

/-- The pydantic `PatientPatch` model: every field optional, presence
tracked by `exclude_unset`. -/
structure PatientPatch where
  name : PatchVal String
  age : PatchVal Int
  arrival_date : PatchVal Nat
  departure_date : PatchVal Nat
  service : PatchVal String
  satisfaction : PatchVal Int
deriving DecidableEq, Repr

/-- Pydantic validation of `PatientPatch`: constraints apply only to
supplied non-null values; `validate_dates` sees only the patch's own
`arrival_date` (absent or null reads as `None`). -/
def pydanticPatientPatchOk (p : PatientPatch) : Bool :=
  (match p.name with
   | some (some n) => 1 ≤ n.length && n.length ≤ 255 | _ => true) &&
  (match p.age with | some (some a) => decide (0 ≤ a) | _ => true) &&
  (match p.service with
   | some (some s) => decide (s.length ≤ 64) | _ => true) &&
  (match p.satisfaction with
   | some (some s) => decide (0 ≤ s ∧ s ≤ 100) | _ => true) &&
  (match p.departure_date, p.arrival_date with
   | some (some d), some (some a) => !decide (d < a)
   | _, _ => true)

/-- Whether the dynamic UPDATE built by `patch_patient` in
`src/api/main.py` ends up with no assignments: `name` contributes only
when supplied non-null; the other five fields contribute whenever their
key is present (null included). -/
def patientUpdatesEmpty (p : PatientPatch) : Bool :=
  (match p.name with | some (some _) => false | _ => true) &&
  p.age.isNone && p.arrival_date.isNone && p.departure_date.isNone &&
  p.service.isNone && p.satisfaction.isNone

/-- Application of the compiled patch to a stored row, following the
assignment list of `patch_patient` in `src/api/main.py`: a null `name`
is skipped; for the other fields a present key assigns its value
(null clears). -/
def applyPatientPatch (r : PatientRow) (p : PatientPatch) : PatientRow :=
  { patient_id := r.patient_id,
    name := match p.name with | some (some n) => n | _ => r.name,
    age := match p.age with | some v => v | none => r.age,
    arrival_date :=
      match p.arrival_date with | some v => v | none => r.arrival_date,
    departure_date :=
      match p.departure_date with | some v => v | none => r.departure_date,
    service := match p.service with | some v => v | none => r.service,
    satisfaction :=
      match p.satisfaction with | some v => v | none => r.satisfaction }

/-- Route handler `PATCH /patients/{patient_id}` of `src/api/main.py`:
look up the row, 404 if absent; build the dynamic update list; 400 if it
is empty; otherwise apply the UPDATE to every row with that key. -/
def patch_patient (st : MySQLState) (pid : String) (p : PatientPatch) :
    ApiResult × MySQLState :=
  match st.patients.find? (fun r => r.patient_id = pid) with
  | none => (.notFound, st)
  | some _ =>
      if patientUpdatesEmpty p then (.emptyPatch, st)
      else
        let rows := st.patients.map
          (fun r => if r.patient_id = pid then applyPatientPatch r p else r)
        (.updated (st.patients.countP (fun r => r.patient_id = pid)),
         { st with patients := rows })

/-- The row written by the full-replace UPDATE of `update_patient`. -/
def replacedRow (pid : String) (q : PatientIn) : PatientRow :=
  { patient_id := pid, name := q.name, age := q.age,
    arrival_date := q.arrival_date, departure_date := q.departure_date,
    service := q.service, satisfaction := q.satisfaction }

/-- Route handler `PUT /patients/{patient_id}` of `src/api/main.py`:
look up the row first, 404 if absent (nothing else happens); otherwise
issue the full-replace UPDATE. -/
def update_patient (st : MySQLState) (pid : String) (q : PatientIn) :
    ApiResult × MySQLState :=
  match st.patients.find? (fun r => r.patient_id = pid) with
  | none => (.notFound, st)
  | some _ =>
      let rows := st.patients.map
        (fun r => if r.patient_id = pid then replacedRow pid q else r)
      (.updated (st.patients.countP (fun r => r.patient_id = pid)),
       { st with patients := rows })

/-- Route handler `DELETE /patients/{patient_id}` of `src/api/main.py`:
look up the row first, 404 if absent; otherwise DELETE and return the
affected count. -/
def delete_patient (st : MySQLState) (pid : String) :
    ApiResult × MySQLState :=
  match st.patients.find? (fun r => r.patient_id = pid) with
  | none => (.notFound, st)
  | some _ =>
      (.deleted (st.patients.countP (fun r => r.patient_id = pid)),
       { st with patients := st.patients.filter (fun r => r.patient_id ≠ pid) })

/-- Route handler `DELETE /staff/{staff_id}` of `src/api/main.py`: no
existence check; DELETE unconditionally and return the affected count. -/
def delete_staff (st : MySQLState) (sid : String) :
    ApiResult × MySQLState :=
  (.deleted (st.staff.countP (fun r => r.staff_id = sid)),
   { st with staff := st.staff.filter (fun r => r.staff_id ≠ sid) })

/-- The pydantic `ServiceWeeklyIn` model. -/
structure ServiceWeeklyIn where
  week : Nat
  month : Nat
  service : String
  available_beds : Option Int
  patients_request : Option Int
  patients_admitted : Option Int
  patients_refused : Option Int
  patient_satisfaction : Option Int
  staff_morale : Option Int
  event : Option String
deriving DecidableEq, Repr

/-- The `services_weekly` row inserted by `create_service_weekly`. -/
def swRowOf (p : ServiceWeeklyIn) : SWRow :=
  { week := p.week, month := p.month, service := p.service,
    available_beds := p.available_beds,
    patients_request := p.patients_request,
    patients_admitted := p.patients_admitted,
    patients_refused := p.patients_refused,
    patient_satisfaction := p.patient_satisfaction,
    staff_morale := p.staff_morale, event := p.event }

/-- Whether an insert of `p` hits the `uix_week_month_service` UNIQUE KEY. -/
def swDuplicate (st : MySQLState) (p : ServiceWeeklyIn) : Bool :=
  st.services_weekly.any
    (fun r => r.week = p.week && r.month = p.month && r.service = p.service)

/-- Route handler `POST /services-weekly` of `src/api/main.py`: a plain
INSERT with no try/except — a duplicate (week, month, service) triple
raises the storage engine's integrity error, which propagates uncaught
(HTTP 500); no `validation_errors` row is written on that path. -/
def create_service_weekly (st : MySQLState) (p : ServiceWeeklyIn) :
    ApiResult × MySQLState :=
  if swDuplicate st p then (.storageFailure, st)
  else
    (.created (toString p.week ++ "/" ++ toString p.month ++ "/" ++ p.service),
     { st with services_weekly := st.services_weekly ++ [swRowOf p] })

/-- The `StaffRole` enum of `src/api/main.py` (identical in
`src/api/main_mongo.py`). -/
inductive StaffRole where
  | doctor
  | nurse
  | nursing_assistant
  | admin
deriving DecidableEq, Repr

/-- The string value of each `StaffRole` member, exactly as declared:
note `ADMIN = "ADMIN"` (uppercase). -/
def StaffRole.value : StaffRole → String
  | .doctor => "doctor"
  | .nurse => "nurse"
  | .nursing_assistant => "nursing_assistant"
  | .admin => "ADMIN"

/-- The `ServiceType` enum of `src/api/main.py`. -/
inductive ServiceType where
  | emergency
  | surgery
  | general_medicine
  | icu
  | front_desk
deriving DecidableEq, Repr

/-- The string value of each `ServiceType` member, exactly as declared:
note `ICU = "ICU"` and `FRONT_DESK = "FRONT DESK"`. -/
def ServiceType.value : ServiceType → String
  | .emergency => "emergency"
  | .surgery => "surgery"
  | .general_medicine => "general_medicine"
  | .icu => "ICU"
  | .front_desk => "FRONT DESK"

/-- Pydantic coercion of a JSON string into `StaffRole`: accepted exactly
when it equals a member's declared value. -/
def parseStaffRole (s : String) : Option StaffRole :=
  if s = "doctor" then some .doctor
  else if s = "nurse" then some .nurse
  else if s = "nursing_assistant" then some .nursing_assistant
  else if s = "ADMIN" then some .admin
  else none

/-- Pydantic coercion of a JSON string into `ServiceType`. -/
def parseServiceType (s : String) : Option ServiceType :=
  if s = "emergency" then some .emergency
  else if s = "surgery" then some .surgery
  else if s = "general_medicine" then some .general_medicine
  else if s = "ICU" then some .icu
  else if s = "FRONT DESK" then some .front_desk
  else none

/-- The set of role strings pydantic accepts for the `role` field. -/
def roleValues : List String :=
  ["doctor", "nurse", "nursing_assistant", "ADMIN"]

/-- The set of service strings pydantic accepts for the `service` field. -/
def serviceValues : List String :=
  ["emergency", "surgery", "general_medicine", "ICU", "FRONT DESK"]

/-- The pydantic `StaffPatch` model. -/
structure StaffPatch where
  staff_name : PatchVal String
  role : PatchVal StaffRole
  service : PatchVal ServiceType
deriving DecidableEq, Repr

/-- The dynamic UPDATE assignment list built by `patch_staff` in
`src/api/main.py`: each field contributes only when supplied non-null,
and enum fields are written as `.value`. -/
def staffPatchUpdates (p : StaffPatch) : List (String × String) :=
  (match p.staff_name with
   | some (some n) => [("staff_name", n)] | _ => []) ++
  (match p.role with
   | some (some r) => [("role", r.value)] | _ => []) ++
  (match p.service with
   | some (some s) => [("service", s.value)] | _ => [])

/-- Whether every enum-valued assignment in an update list carries a
canonical enum string. -/
def updatesCanonical (l : List (String × String)) : Bool :=
  l.all (fun kv =>
    if kv.1 = "role" then roleValues.contains kv.2
    else if kv.1 = "service" then serviceValues.contains kv.2
    else true)

/-! ## Document (MongoDB) backend -/

/-- A document of the `patients` collection as produced by the handlers
of `src/api/main_mongo.py`: `model_dump` always supplies every key, so
each field is a present key whose value may be JSON null (`none`).
Dates are stored as ISO strings via `_date_to_iso`, abstracted here to
their underlying date value. -/
structure MongoPatientDoc where
  patient_id : Option String
  name : Option String
  age : Option Int
  arrival_date : Option Nat
  departure_date : Option Nat
  service : Option String
  satisfaction : Option Int
deriving DecidableEq, Repr

/-- Validation of a patients document against `patients_schema` of
`src/task1_mongodb/schema.py` after `_bson_to_jsonschema` conversion:
`patient_id`, `name`, `age`, `arrival_date`, `service`, `satisfaction`
are required with non-null typed values; `departure_date` is
`["date","null"]`, so null is allowed.  The `date` format check is
abstracted away: every stored date string comes from `_date_to_iso` on a
pydantic `date` and is ISO-valid. -/
def mongoPatientSchemaOk (d : MongoPatientDoc) : Bool :=
  d.patient_id.isSome && d.name.isSome && d.age.isSome &&
  d.arrival_date.isSome && d.service.isSome && d.satisfaction.isSome

/-- The document built by the mongo `create_patient`/`update_patient`
handlers from a `PatientIn` payload and a key. -/
def docOfPatientIn (pid : String) (q : PatientIn) : MongoPatientDoc :=
  { patient_id := some pid, name := some q.name, age := q.age,
    arrival_date := q.arrival_date, departure_date := q.departure_date,
    service := q.service, satisfaction := q.satisfaction }

/-- Mongo route handler `POST /patients` (`src/api/main_mongo.py`):
build the document, validate it against the task schema (400 on
failure), then insert. -/
def mongoCreatePatient (db : List MongoPatientDoc) (pid : String)
    (q : PatientIn) : ApiResult × List MongoPatientDoc :=
  let doc := docOfPatientIn pid q
  if mongoPatientSchemaOk doc then (.created pid, db ++ [doc])
  else (.schemaError, db)

/-- Mongo route handler `PUT /patients/{patient_id}`: the payload
document is schema-validated BEFORE the update is attempted; only then
does `matched_count == 0` surface as 404. -/
def mongoUpdatePatient (db : List MongoPatientDoc) (pid : String)
    (q : PatientIn) : ApiResult × List MongoPatientDoc :=
  let payload_doc := docOfPatientIn pid q
  if !mongoPatientSchemaOk payload_doc then (.schemaError, db)
  else if db.any (fun d => d.patient_id = some pid) then
    let docs := db.map
      (fun d => if d.patient_id = some pid then payload_doc else d)
    (.updated 1, docs)
  else (.notFound, db)

/-- `$set` of the supplied patch keys onto a stored document
(mongo `patch_patient`): every present key is written, null values
included — the mongo path does not filter out a null `name`. -/
def mongoApplyPatientPatch (d : MongoPatientDoc) (p : PatientPatch) :
    MongoPatientDoc :=
  { patient_id := d.patient_id,
    name := match p.name with | some v => v | none => d.name,
    age := match p.age with | some v => v | none => d.age,
    arrival_date :=
      match p.arrival_date with | some v => v | none => d.arrival_date,
    departure_date :=
      match p.departure_date with | some v => v | none => d.departure_date,
    service := match p.service with | some v => v | none => d.service,
    satisfaction :=
      match p.satisfaction with | some v => v | none => d.satisfaction }

/-- Whether the mongo patch payload dictionary is empty after
`exclude_unset` (no keys supplied at all). -/
def mongoPatientPatchEmpty (p : PatientPatch) : Bool :=
  p.name.isNone && p.age.isNone && p.arrival_date.isNone &&
  p.departure_date.isNone && p.service.isNone && p.satisfaction.isNone

/-- `update_one` on the first document matching the key. -/
def mongoUpdateFirst (db : List MongoPatientDoc) (pid : String)
    (f : MongoPatientDoc → MongoPatientDoc) : List MongoPatientDoc :=
  match db with
  | [] => []
  | d :: rest =>
      if d.patient_id = some pid then f d :: rest
      else d :: mongoUpdateFirst rest pid f

/-- Mongo route handler `PATCH /patients/{patient_id}`: find the
document (404 if absent), reject an empty patch (400), merge the
existing document with the patch and schema-validate the MERGED view
(400 on failure), then `$set` the patch onto the matched document. -/
def mongoPatchPatient (db : List MongoPatientDoc) (pid : String)
    (p : PatientPatch) : ApiResult × List MongoPatientDoc :=
  match db.find? (fun d => d.patient_id = some pid) with
  | none => (.notFound, db)
  | some doc =>
      if mongoPatientPatchEmpty p then (.emptyPatch, db)
      else if !mongoPatientSchemaOk (mongoApplyPatientPatch doc p) then
        (.schemaError, db)
      else
        (.updated 1,
         mongoUpdateFirst db pid (fun d => mongoApplyPatientPatch d p))

/-- A document of the mongo `staff` collection. -/
structure MongoStaffDoc where
  staff_id : Option String
  staff_name : Option String
  role : Option String
  service : Option String
deriving DecidableEq, Repr

/-- Mongo route handler `DELETE /patients/{patient_id}`: `delete_one`,
then 404 exactly when the deleted count is 0. -/
def mongoDeletePatient (db : List MongoPatientDoc) (pid : String) :
    ApiResult × List MongoPatientDoc :=
  match db.find? (fun d => d.patient_id = some pid) with
  | none => (.notFound, db)
  | some doc => (.deleted 1, db.erase doc)

/-- Mongo route handler `DELETE /staff/{staff_id}`: `delete_one` and
return the deleted count unconditionally — no 404 branch. -/
def mongoDeleteStaff (db : List MongoStaffDoc) (sid : String) :
    ApiResult × List MongoStaffDoc :=
  match db.find? (fun d => d.staff_id = some sid) with
  | none => (.deleted 0, db)
  | some doc => (.deleted 1, db.erase doc)

/-! ## Rule predicates and message helpers -/

/-- The satisfaction business rule: in [0,100] when present. -/
def satRuleOk : Option Int → Bool
  | some s => decide (0 ≤ s ∧ s ≤ 100)
  | none => true

/-- The age business rule: nonnegative when present. -/
def ageRuleOk : Option Int → Bool
  | some a => decide (0 ≤ a)
  | none => true

/-- The date-ordering business rule: departure at or after arrival when
both present. -/
def dateOrderOk (arrival departure : Option Nat) : Bool :=
  match departure, arrival with
  | some d, some a => decide (a ≤ d)
  | _, _ => true

/-- The `;`-joined message `CONCAT_WS` builds from a nonempty violation
list. -/
def joinedMsg : List String → String
  | [] => ""
  | e :: rest => rest.foldl (fun acc x => acc ++ ";" ++ x) e

/-- `tok` occurs as a substring of `msg`. -/
def strMentions (msg tok : String) : Prop :=
  ∃ u v : List Char, msg.data = u ++ tok.data ++ v

/-! ## Helper lemmas -/

lemma joinErr_of_ne_nil (l : List String) (h : l ≠ []) :
    joinErr l = some (joinedMsg l) := by
  cases l with
  | nil => exact absurd rfl h
  | cons e rest => rfl

lemma satViolations_shape (v : Option Int) :
    satViolations v = [] ∨ ∃ t, satViolations v = [t] := by
  cases v with
  | none => exact Or.inl rfl
  | some s =>
      by_cases hb : s < 0 ∨ 100 < s
      · exact Or.inr ⟨"satisfaction=" ++ toString s, by simp [satViolations, hb]⟩
      · exact Or.inl (by simp [satViolations, hb])

lemma ageViolations_shape (v : Option Int) :
    ageViolations v = [] ∨ ∃ t, ageViolations v = [t] := by
  cases v with
  | none => exact Or.inl rfl
  | some a =>
      by_cases hb : a < 0
      · exact Or.inr ⟨"age=" ++ toString a, by simp [ageViolations, hb]⟩
      · exact Or.inl (by simp [ageViolations, hb])

lemma satViolations_of_bad (s : Int) (h : satRuleOk (some s) = false) :
    satViolations (some s) = ["satisfaction=" ++ toString s] := by
  have hb : s < 0 ∨ 100 < s := by
    simp [satRuleOk] at h
    omega
  simp [satViolations, hb]

lemma ageViolations_of_bad (a : Int) (h : ageRuleOk (some a) = false) :
    ageViolations (some a) = ["age=" ++ toString a] := by
  have hb : a < 0 := by
    simp [ageRuleOk] at h
    omega
  simp [ageViolations, hb]

lemma satViolations_of_ok (v : Option Int) (h : satRuleOk v = true) :
    satViolations v = [] := by
  cases v with
  | none => rfl
  | some s =>
      have hb : ¬(s < 0 ∨ 100 < s) := by
        simp [satRuleOk] at h
        omega
      simp [satViolations, hb]

lemma ageViolations_of_ok (v : Option Int) (h : ageRuleOk v = true) :
    ageViolations v = [] := by
  cases v with
  | none => rfl
  | some a =>
      have hb : ¬(a < 0) := by
        simp [ageRuleOk] at h
        omega
      simp [ageViolations, hb]

lemma strMentions_self (x : String) : strMentions x x :=
  ⟨[], [], by simp⟩

lemma strMentions_head (x y : String) : strMentions (x ++ ";" ++ y) x :=
  ⟨[], (";" ++ y).data, by simp⟩

lemma strMentions_last (x y : String) : strMentions (x ++ ";" ++ y) y :=
  ⟨(x ++ ";").data, [], by simp⟩

/-! ## Claims -/

/-- C1: for every relational patient create whose payload violates a
business rule (satisfaction outside [0,100] or age < 0),
`sp_insert_patient` rejects: it appends exactly one RejectionRecord to
`validation_errors` whose message mentions the offending value, leaves
`patients` untouched, and writes no AuditRecord to `audit_log`. -/
theorem c1_relational_create_rejected (st : MySQLState) (p : PatientParams)
    (user : String)
    (h : satRuleOk p.satisfaction = false ∨ ageRuleOk p.age = false) :
    sp_insert_patient st p user =
      (.validation_failed (joinedMsg (patientRuleViolations p)),
       { st with validation_errors := st.validation_errors ++
           [{ table_name := "patients", row_pk := p.patient_id,
              error_message := joinedMsg (patientRuleViolations p),
              payload := spPayload p }] }) ∧
    (satRuleOk p.satisfaction = false →
      strMentions (joinedMsg (patientRuleViolations p))
        ("satisfaction=" ++ optIntJson p.satisfaction)) ∧
    (ageRuleOk p.age = false →
      strMentions (joinedMsg (patientRuleViolations p))
        ("age=" ++ optIntJson p.age)) := by
  have hne : patientRuleViolations p ≠ [] := by
    rcases h with h | h
    · cases hs : p.satisfaction with
      | none => rw [hs] at h; simp [satRuleOk] at h
      | some s =>
          rw [hs] at h
          have hS := satViolations_of_bad s h
          simp [patientRuleViolations, hs, hS]
    · cases ha : p.age with
      | none => rw [ha] at h; simp [ageRuleOk] at h
      | some a =>
          rw [ha] at h
          have hA := ageViolations_of_bad a h
          simp [patientRuleViolations, ha, hA]
  refine ⟨?_, ?_, ?_⟩
  · unfold sp_insert_patient
    rw [joinErr_of_ne_nil _ hne]
  · intro hbad
    cases hs : p.satisfaction with
    | none => rw [hs] at hbad; simp [satRuleOk] at hbad
    | some s =>
        rw [hs] at hbad
        have hS := satViolations_of_bad s hbad
        rcases ageViolations_shape p.age with hA | ⟨t, hA⟩
        · simp only [patientRuleViolations, hs, hS, hA, List.append_nil,
            joinedMsg, List.foldl, optIntJson]
          exact strMentions_self _
        · simp only [patientRuleViolations, hs, hS, hA,
            List.singleton_append, joinedMsg, List.foldl, optIntJson]
          exact strMentions_head _ _
  · intro hbad
    cases ha : p.age with
    | none => rw [ha] at hbad; simp [ageRuleOk] at hbad
    | some a =>
        rw [ha] at hbad
        have hA := ageViolations_of_bad a hbad
        rcases satViolations_shape p.satisfaction with hS | ⟨t, hS⟩
        · simp only [patientRuleViolations, ha, hS, hA, List.nil_append,
            joinedMsg, List.foldl, optIntJson]
          exact strMentions_self _
        · simp only [patientRuleViolations, ha, hS, hA,
            List.singleton_append, joinedMsg, List.foldl, optIntJson]
          exact strMentions_last _ _

/-- Input of the C1 witness: Alice with satisfaction 150. -/
def pC1 : PatientParams :=
  { patient_id := "PAT-1", name := "Alice", age := some 45,
    arrival_date := some 10, departure_date := some 20,
    service := some "ICU", satisfaction := some 150 }

/-- C1 witness: the theorem applied to a concrete payload with
satisfaction 150 against the empty database. -/
theorem c1_relational_create_rejected_witness :
    sp_insert_patient emptyState pC1 "api" =
      (.validation_failed (joinedMsg (patientRuleViolations pC1)),
       { emptyState with validation_errors := emptyState.validation_errors ++
           [{ table_name := "patients", row_pk := pC1.patient_id,
              error_message := joinedMsg (patientRuleViolations pC1),
              payload := spPayload pC1 }] }) ∧
    (satRuleOk pC1.satisfaction = false →
      strMentions (joinedMsg (patientRuleViolations pC1))
        ("satisfaction=" ++ optIntJson pC1.satisfaction)) ∧
    (ageRuleOk pC1.age = false →
      strMentions (joinedMsg (patientRuleViolations pC1))
        ("age=" ++ optIntJson pC1.age)) :=
  c1_relational_create_rejected emptyState pC1 "api" (Or.inl (by decide))

/-- C2: for every Patient payload satisfying all business rules
(satisfaction in [0,100] when present, age >= 0 when present, departure
at or after arrival when both set), `sp_insert_patient` stores the row
and appends exactly one AuditRecord with operation INSERT, NULL
before-state, and after-state equal to the serialization of the stored
row; `validation_errors` is untouched. -/
theorem c2_relational_create_audited (st : MySQLState) (p : PatientParams)
    (user : String)
    (hsat : satRuleOk p.satisfaction = true)
    (hage : ageRuleOk p.age = true)
    (_hdate : dateOrderOk p.arrival_date p.departure_date = true) :
    sp_insert_patient st p user =
      (.inserted,
       { st with
           patients := st.patients ++ [rowOfParams p],
           audit_log := st.audit_log ++
             [{ table_name := "patients", row_pk := p.patient_id,
                operation := "INSERT", old_values := none,
                new_values := some (rowSerialize (rowOfParams p)),
                changed_by := user }] }) := by
  have hS := satViolations_of_ok p.satisfaction hsat
  have hA := ageViolations_of_ok p.age hage
  have hnil : patientRuleViolations p = [] := by
    simp [patientRuleViolations, hS, hA]
  unfold sp_insert_patient
  rw [hnil]
  rfl

/-- Input of the C2 witness: a fully valid payload. -/
def pC2 : PatientParams :=
  { patient_id := "PAT-2", name := "Alice", age := some 45,
    arrival_date := some 10, departure_date := some 20,
    service := some "ICU", satisfaction := some 80 }

/-- C2 witness: the theorem applied to a concrete valid payload against
the empty database. -/
theorem c2_relational_create_audited_witness :
    sp_insert_patient emptyState pC2 "api" =
      (.inserted,
       { emptyState with
           patients := emptyState.patients ++ [rowOfParams pC2],
           audit_log := emptyState.audit_log ++
             [{ table_name := "patients", row_pk := pC2.patient_id,
                operation := "INSERT", old_values := none,
                new_values := some (rowSerialize (rowOfParams pC2)),
                changed_by := "api" }] }) :=
  c2_relational_create_audited emptyState pC2 "api" (by decide) (by decide)
    (by decide)

/-- Full business-rule validation of a stored patients row (the rules of
the spec's Business Rule Validator evaluated on a whole row). -/
def patientRowRulesOk (r : PatientRow) : Bool :=
  satRuleOk r.satisfaction && ageRuleOk r.age &&
  dateOrderOk r.arrival_date r.departure_date

/-- Stored row for the C3 counterexample: arrival day 10, departure 12. -/
def rowC3 : PatientRow :=
  { patient_id := "p1", name := "Bob", age := some 30,
    arrival_date := some 10, departure_date := some 12,
    service := some "ICU", satisfaction := some 50 }

/-- Relational database holding only `rowC3`. -/
def stC3 : MySQLState := { emptyState with patients := [rowC3] }

/-- C3 patch: sets only `departure_date`, to day 5 (before arrival). -/
def patchC3 : PatientPatch :=
  { name := none, age := none, arrival_date := none,
    departure_date := some (some 5), service := none,
    satisfaction := none }

/-- C3 counterexample: a pydantic-valid patch setting only
`departure_date` is accepted by the relational `patch_patient` and
stores a row with departure_date 5 < arrival_date 10, which fails full
business-rule validation — the merged view is not what is rule-checked. -/
theorem c3_counterexample_relational_patch_unmerged :
    pydanticPatientPatchOk patchC3 = true ∧
    patch_patient stC3 "p1" patchC3 =
      (.updated 1,
       { stC3 with patients := [{ rowC3 with departure_date := some 5 }] }) ∧
    patientRowRulesOk { rowC3 with departure_date := some 5 } = false := by
  decide

/-- C3 amended: only the document backend checks the merged view, and
only for shape — whenever the mongo `patch_patient` applies a patch, the
merged (existing + patch) document passed the collection schema check;
the relational handler validates the patch fields alone and neither
backend re-checks date ordering on the merged view. -/
theorem c3_amended_mongo_merged_shape_checked (db : List MongoPatientDoc)
    (pid : String) (p : PatientPatch) (d : MongoPatientDoc)
    (hfind : db.find? (fun x => x.patient_id = some pid) = some d)
    (hres : (mongoPatchPatient db pid p).1 = .updated 1) :
    mongoPatientSchemaOk (mongoApplyPatientPatch d p) = true := by
  unfold mongoPatchPatient at hres
  rw [hfind] at hres
  by_cases he : mongoPatientPatchEmpty p
  · simp [he] at hres
  · by_cases hok : mongoPatientSchemaOk (mongoApplyPatientPatch d p)
    · exact hok
    · simp [he, hok] at hres

/-- Stored mongo document for the C3 witness. -/
def docC3 : MongoPatientDoc :=
  { patient_id := some "p1", name := some "Bob", age := some 30,
    arrival_date := some 10, departure_date := some 12,
    service := some "ICU", satisfaction := some 50 }

/-- Patch for the C3 witness: sets only `satisfaction`. -/
def patchC3w : PatientPatch :=
  { name := none, age := none, arrival_date := none,
    departure_date := none, service := none,
    satisfaction := some (some 90) }

/-- C3 witness: the amended theorem applied to a concrete accepted mongo
patch. -/
theorem c3_amended_mongo_merged_shape_checked_witness :
    mongoPatientSchemaOk (mongoApplyPatientPatch docC3 patchC3w) = true :=
  c3_amended_mongo_merged_shape_checked [docC3] "p1" patchC3w docC3
    (by decide) (by decide)

/-- C4 counterexample payload: departure day 5 before arrival day 10,
satisfaction and age valid. -/
def pC4 : PatientParams :=
  { patient_id := "PAT-4", name := "Carol", age := some 30,
    arrival_date := some 10, departure_date := some 5,
    service := some "ICU", satisfaction := some 50 }

/-- C4 counterexample: the relational Business Rule Validator does not
enforce three rules — a candidate violating departure >= arrival passes
`sp_insert_patient` with no rule violation recorded and is inserted. -/
theorem c4_counterexample_third_rule_not_enforced :
    dateOrderOk pC4.arrival_date pC4.departure_date = false ∧
    (sp_insert_patient emptyState pC4 "api").1 = .inserted ∧
    (sp_insert_patient emptyState pC4 "api").2.validation_errors = [] := by
  decide

/-- C4 amended: the relational Business Rule Validator enforces exactly
two rules (satisfaction in [0,100] when present; age >= 0 when present;
date ordering is not among them), and on a candidate violating both it
collects both violations without short-circuit and joins them with ';'
into the single RuleError message stored in one RejectionRecord. -/
theorem c4_amended_two_rules_collected (st : MySQLState) (p : PatientParams)
    (user : String) (s a : Int)
    (hs : p.satisfaction = some s) (hsBad : satRuleOk (some s) = false)
    (ha : p.age = some a) (haBad : ageRuleOk (some a) = false) :
    sp_insert_patient st p user =
      (.validation_failed
         ("satisfaction=" ++ toString s ++ ";" ++ ("age=" ++ toString a)),
       { st with validation_errors := st.validation_errors ++
           [{ table_name := "patients", row_pk := p.patient_id,
              error_message :=
                "satisfaction=" ++ toString s ++ ";" ++
                  ("age=" ++ toString a),
              payload := spPayload p }] }) := by
  have hS := satViolations_of_bad s hsBad
  have hA := ageViolations_of_bad a haBad
  have hlist : patientRuleViolations p =
      ["satisfaction=" ++ toString s, "age=" ++ toString a] := by
    simp [patientRuleViolations, hs, ha, hS, hA]
  unfold sp_insert_patient
  rw [hlist]
  rfl

/-- C4 witness payload: satisfaction 150 and age -1, both violating. -/
def pC4w : PatientParams :=
  { patient_id := "PAT-4w", name := "Dave", age := some (-1),
    arrival_date := none, departure_date := none,
    service := none, satisfaction := some 150 }

/-- C4 witness: the amended theorem applied to a doubly-violating
payload; the joined message is `satisfaction=150;age=-1`. -/
theorem c4_amended_two_rules_collected_witness :
    sp_insert_patient emptyState pC4w "api" =
      (.validation_failed
         ("satisfaction=" ++ toString (150 : Int) ++ ";" ++
            ("age=" ++ toString (-1 : Int))),
       { emptyState with validation_errors := emptyState.validation_errors ++
           [{ table_name := "patients", row_pk := pC4w.patient_id,
              error_message :=
                "satisfaction=" ++ toString (150 : Int) ++ ";" ++
                  ("age=" ++ toString (-1 : Int)),
              payload := spPayload pC4w }] }) :=
  c4_amended_two_rules_collected emptyState pC4w "api" 150 (-1) rfl
    (by decide) rfl (by decide)

/-- C5 counterexample payload: pydantic-valid (only `name` supplied) but
failing the mongo collection schema (null age, arrival_date, service,
satisfaction). -/
def qC5 : PatientIn :=
  { name := "Alice", age := none, arrival_date := none,
    departure_date := none, service := none, satisfaction := none }

/-- C5 counterexample: on the document backend the shape validator runs
BEFORE the existence check — a full replace addressed to a key absent
from the (empty) collection returns a schema error, not NotFound. -/
theorem c5_counterexample_mongo_validates_before_not_found :
    pydanticPatientInOk qC5 = true ∧
    mongoUpdatePatient [] "PAT-9" qC5 = (.schemaError, []) := by
  decide

/-- C5 amended: a full replace on a missing key is terminal NotFound
with no side effects on the relational backend; on the document backend
the payload is schema-validated first, and only when it passes does
absence yield NotFound (again with no mutation); neither branch writes
an audit or rejection record. -/
theorem c5_amended_replace_not_found (st : MySQLState)
    (db : List MongoPatientDoc) (pid : String) (q : PatientIn)
    (h1 : st.patients.find? (fun r => r.patient_id = pid) = none)
    (h2 : db.any (fun d => d.patient_id = some pid) = false) :
    update_patient st pid q = (.notFound, st) ∧
    (mongoPatientSchemaOk (docOfPatientIn pid q) = true →
      mongoUpdatePatient db pid q = (.notFound, db)) := by
  constructor
  · unfold update_patient
    rw [h1]
  · intro hok
    unfold mongoUpdatePatient
    simp [hok, h2]

/-- C5 witness payload: all schema-required fields supplied. -/
def qC5w : PatientIn :=
  { name := "Alice", age := some 45, arrival_date := some 10,
    departure_date := some 20, service := some "ICU",
    satisfaction := some 80 }

/-- C5 witness: the amended theorem applied to a schema-valid payload
addressed to a missing key on both (empty) backends. -/
theorem c5_amended_replace_not_found_witness :
    update_patient emptyState "PAT-9" qC5w = (.notFound, emptyState) ∧
    (mongoPatientSchemaOk (docOfPatientIn "PAT-9" qC5w) = true →
      mongoUpdatePatient [] "PAT-9" qC5w = (.notFound, [])) :=
  c5_amended_replace_not_found emptyState [] "PAT-9" qC5w rfl rfl

/-- Stored row for the C6 counterexample. -/
def rowC6 : PatientRow :=
  { patient_id := "p6", name := "Alice", age := some 30,
    arrival_date := some 10, departure_date := some 12,
    service := some "ICU", satisfaction := some 50 }

/-- Relational database holding only `rowC6`. -/
def stC6 : MySQLState := { emptyState with patients := [rowC6] }

/-- C6 patch: supplies only `name`, explicitly null. -/
def patchC6 : PatientPatch :=
  { name := some none, age := none, arrival_date := none,
    departure_date := none, service := none, satisfaction := none }

/-- C6 counterexample: a present null is not uniformly a clear — a patch
carrying only an explicit null `name` is filtered out entirely, so it
fails with EmptyPatchError (400, no mutation) instead of clearing the
field. -/
theorem c6_counterexample_null_name_filtered :
    pydanticPatientPatchOk patchC6 = true ∧
    patch_patient stC6 "p6" patchC6 = (.emptyPatch, stC6) := by
  decide

/-- C6 amended: absence leaves a field untouched; a present null clears
the five nullable columns (age, arrival_date, departure_date, service,
satisfaction) but a present null `name` is filtered out like an absent
key; a patch whose compiled assignment list is empty fails with
EmptyPatchError and mutates nothing, while a nonempty one applies
exactly the compiled assignments to the addressed row. -/
theorem c6_amended_patch_compile (st : MySQLState) (pid : String)
    (p : PatientPatch) (r : PatientRow)
    (hfind : st.patients.find? (fun x => x.patient_id = pid) = some r) :
    (patientUpdatesEmpty p = true → patch_patient st pid p = (.emptyPatch, st)) ∧
    (p.name = none → (applyPatientPatch r p).name = r.name) ∧
    (p.name = some none → (applyPatientPatch r p).name = r.name) ∧
    (p.age = none → (applyPatientPatch r p).age = r.age) ∧
    (p.age = some none → (applyPatientPatch r p).age = none) ∧
    (p.arrival_date = none →
      (applyPatientPatch r p).arrival_date = r.arrival_date) ∧
    (p.arrival_date = some none →
      (applyPatientPatch r p).arrival_date = none) ∧
    (p.departure_date = none →
      (applyPatientPatch r p).departure_date = r.departure_date) ∧
    (p.departure_date = some none →
      (applyPatientPatch r p).departure_date = none) ∧
    (p.service = none → (applyPatientPatch r p).service = r.service) ∧
    (p.service = some none → (applyPatientPatch r p).service = none) ∧
    (p.satisfaction = none →
      (applyPatientPatch r p).satisfaction = r.satisfaction) ∧
    (p.satisfaction = some none →
      (applyPatientPatch r p).satisfaction = none) ∧
    (patientUpdatesEmpty p = false →
      patch_patient st pid p =
        (.updated (st.patients.countP (fun x => x.patient_id = pid)),
         { st with patients := st.patients.map (fun x =>
             if x.patient_id = pid then applyPatientPatch x p else x) })) := by
  refine ⟨?_, ?_, ?_, ?_, ?_, ?_, ?_, ?_, ?_, ?_, ?_, ?_, ?_, ?_⟩
  · intro h
    unfold patch_patient
    rw [hfind]
    simp [h]
  · intro h; simp [applyPatientPatch, h]
  · intro h; simp [applyPatientPatch, h]
  · intro h; simp [applyPatientPatch, h]
  · intro h; simp [applyPatientPatch, h]
  · intro h; simp [applyPatientPatch, h]
  · intro h; simp [applyPatientPatch, h]
  · intro h; simp [applyPatientPatch, h]
  · intro h; simp [applyPatientPatch, h]
  · intro h; simp [applyPatientPatch, h]
  · intro h; simp [applyPatientPatch, h]
  · intro h; simp [applyPatientPatch, h]
  · intro h; simp [applyPatientPatch, h]
  · intro h
    unfold patch_patient
    rw [hfind]
    simp [h]

/-- C6 witness patch: clears `age` (explicit null) and sets
`satisfaction` to 90. -/
def patchC6w : PatientPatch :=
  { name := none, age := some none, arrival_date := none,
    departure_date := none, service := none,
    satisfaction := some (some 90) }

/-- C6 witness: the amended theorem applied to the concrete one-row
database and a patch clearing `age`. -/
theorem c6_amended_patch_compile_witness :
    (patientUpdatesEmpty patchC6w = true →
      patch_patient stC6 "p6" patchC6w = (.emptyPatch, stC6)) ∧
    (patchC6w.name = none →
      (applyPatientPatch rowC6 patchC6w).name = rowC6.name) ∧
    (patchC6w.name = some none →
      (applyPatientPatch rowC6 patchC6w).name = rowC6.name) ∧
    (patchC6w.age = none →
      (applyPatientPatch rowC6 patchC6w).age = rowC6.age) ∧
    (patchC6w.age = some none →
      (applyPatientPatch rowC6 patchC6w).age = none) ∧
    (patchC6w.arrival_date = none →
      (applyPatientPatch rowC6 patchC6w).arrival_date = rowC6.arrival_date) ∧
    (patchC6w.arrival_date = some none →
      (applyPatientPatch rowC6 patchC6w).arrival_date = none) ∧
    (patchC6w.departure_date = none →
      (applyPatientPatch rowC6 patchC6w).departure_date =
        rowC6.departure_date) ∧
    (patchC6w.departure_date = some none →
      (applyPatientPatch rowC6 patchC6w).departure_date = none) ∧
    (patchC6w.service = none →
      (applyPatientPatch rowC6 patchC6w).service = rowC6.service) ∧
    (patchC6w.service = some none →
      (applyPatientPatch rowC6 patchC6w).service = none) ∧
    (patchC6w.satisfaction = none →
      (applyPatientPatch rowC6 patchC6w).satisfaction =
        rowC6.satisfaction) ∧
    (patchC6w.satisfaction = some none →
      (applyPatientPatch rowC6 patchC6w).satisfaction = none) ∧
    (patientUpdatesEmpty patchC6w = false →
      patch_patient stC6 "p6" patchC6w =
        (.updated (stC6.patients.countP (fun x => x.patient_id = "p6")),
         { stC6 with patients := stC6.patients.map (fun x =>
             if x.patient_id = "p6" then applyPatientPatch x patchC6w
             else x) })) :=
  c6_amended_patch_compile stC6 "p6" patchC6w rowC6 (by decide)

/-- The stored-procedure parameter tuple built by the relational
`create_patient` handler: the payload fields plus the generated key. -/
def paramsOfIn (pid : String) (q : PatientIn) : PatientParams :=
  { patient_id := pid, name := q.name, age := q.age,
    arrival_date := q.arrival_date, departure_date := q.departure_date,
    service := q.service, satisfaction := q.satisfaction }

/-- C7 counterexample payload: pydantic-valid with only `name` set. -/
def qC7 : PatientIn :=
  { name := "Alice", age := none, arrival_date := none,
    departure_date := none, service := none, satisfaction := none }

/-- C7 counterexample: the two backends do not reject on identical
inputs — the same pydantic-valid candidate is accepted (inserted) by the
relational create but rejected by the document path's schema check. -/
theorem c7_counterexample_backends_diverge :
    pydanticPatientInOk qC7 = true ∧
    (sp_insert_patient emptyState (paramsOfIn "PAT-7" qC7) "api").1 =
      .inserted ∧
    mongoCreatePatient [] "PAT-7" qC7 = (.schemaError, []) := by
  decide

/-- C7 amended: the backends share the identical pydantic input
contract, but the document path layers the stricter collection schema
(age, arrival_date, service, satisfaction required non-null) on top;
acceptance coincides exactly on payloads meeting that stricter shape —
any pydantic-valid payload with those four fields present is accepted by
both backends. -/
theorem c7_amended_accept_on_strict_shape (st : MySQLState)
    (db : List MongoPatientDoc) (pid : String) (q : PatientIn)
    (hp : pydanticPatientInOk q = true)
    (hage : q.age.isSome = true) (harr : q.arrival_date.isSome = true)
    (hsvc : q.service.isSome = true) (hsat : q.satisfaction.isSome = true) :
    (sp_insert_patient st (paramsOfIn pid q) "api").1 = .inserted ∧
    (mongoCreatePatient db pid q).1 = .created pid := by
  constructor
  · have hsatOk : satRuleOk q.satisfaction = true := by
      cases hqs : q.satisfaction with
      | none => rfl
      | some s =>
          simp only [pydanticPatientInOk, hqs, Bool.and_eq_true] at hp
          simpa [satRuleOk] using hp.1.2
    have hageOk : ageRuleOk q.age = true := by
      cases hqa : q.age with
      | none => rfl
      | some a =>
          simp only [pydanticPatientInOk, hqa, Bool.and_eq_true] at hp
          simpa [ageRuleOk] using hp.1.1.1.2
    have hnil : patientRuleViolations (paramsOfIn pid q) = [] := by
      simp [patientRuleViolations, paramsOfIn,
        satViolations_of_ok _ hsatOk, ageViolations_of_ok _ hageOk]
    unfold sp_insert_patient
    rw [hnil]
    rfl
  · unfold mongoCreatePatient
    simp [mongoPatientSchemaOk, docOfPatientIn, hage, harr, hsvc, hsat]

/-- C7 witness payload: all four schema-required optional fields set. -/
def qC7w : PatientIn :=
  { name := "Alice", age := some 45, arrival_date := some 10,
    departure_date := some 20, service := some "ICU",
    satisfaction := some 80 }

/-- C7 witness: the amended theorem applied to a concrete strict-shape
payload against the empty backends. -/
theorem c7_amended_accept_on_strict_shape_witness :
    (sp_insert_patient emptyState (paramsOfIn "PAT-7" qC7w) "api").1 =
      .inserted ∧
    (mongoCreatePatient [] "PAT-7" qC7w).1 = .created "PAT-7" :=
  c7_amended_accept_on_strict_shape emptyState [] "PAT-7" qC7w
    (by decide) rfl rfl rfl rfl

/-- C8: creating a ServiceWeeklyMetric whose (week, month, service)
triple is not yet stored succeeds; repeating the identical create then
fails at the storage uniqueness constraint, surfaced as a storage
failure (uncaught engine error, a server fault) and not as a RuleError,
with no RejectionRecord written and no row change. -/
theorem c8_sw_duplicate_storage_failure (st : MySQLState)
    (p : ServiceWeeklyIn) (h : swDuplicate st p = false) :
    (create_service_weekly st p).1 =
      .created (toString p.week ++ "/" ++ toString p.month ++ "/" ++
        p.service) ∧
    (create_service_weekly st p).2.services_weekly =
      st.services_weekly ++ [swRowOf p] ∧
    (create_service_weekly st p).2.validation_errors =
      st.validation_errors ∧
    create_service_weekly (create_service_weekly st p).2 p =
      (.storageFailure, (create_service_weekly st p).2) ∧
    ApiResult.isRuleError
      (create_service_weekly (create_service_weekly st p).2 p).1 = false := by
  have h1 : create_service_weekly st p =
      (.created (toString p.week ++ "/" ++ toString p.month ++ "/" ++
         p.service),
       { st with services_weekly := st.services_weekly ++ [swRowOf p] }) := by
    unfold create_service_weekly
    rw [h]
    simp
  have h2 : swDuplicate
      { st with services_weekly := st.services_weekly ++ [swRowOf p] } p
      = true := by
    simp [swDuplicate, swRowOf]
  refine ⟨by rw [h1], by rw [h1], by rw [h1], ?_, ?_⟩
  · rw [h1]
    unfold create_service_weekly
    rw [h2]
    simp
  · rw [h1]
    unfold create_service_weekly
    rw [h2]
    simp [ApiResult.isRuleError]

/-- The C8 witness payload: week 10, month 3, service emergency. -/
def swC8 : ServiceWeeklyIn :=
  { week := 10, month := 3, service := "emergency",
    available_beds := some 20, patients_request := some 5,
    patients_admitted := some 4, patients_refused := some 1,
    patient_satisfaction := some 80, staff_morale := some 70,
    event := none }

/-- C8 witness: the theorem applied to the spec's example triple against
the empty database. -/
theorem c8_sw_duplicate_storage_failure_witness :
    (create_service_weekly emptyState swC8).1 =
      .created (toString swC8.week ++ "/" ++ toString swC8.month ++ "/" ++
        swC8.service) ∧
    (create_service_weekly emptyState swC8).2.services_weekly =
      emptyState.services_weekly ++ [swRowOf swC8] ∧
    (create_service_weekly emptyState swC8).2.validation_errors =
      emptyState.validation_errors ∧
    create_service_weekly (create_service_weekly emptyState swC8).2 swC8 =
      (.storageFailure, (create_service_weekly emptyState swC8).2) ∧
    ApiResult.isRuleError
      (create_service_weekly (create_service_weekly emptyState swC8).2
        swC8).1 = false :=
  c8_sw_duplicate_storage_failure emptyState swC8 (by decide)

/-- C10: delete on a nonexistent key is inconsistent across entity
kinds — a missing patient yields NotFound (404) on both backends, while
a missing staff key succeeds with a deleted count of 0 on both
backends, every time with no state change. -/
theorem c10_delete_not_found_inconsistent (st : MySQLState)
    (db : List MongoPatientDoc) (db2 : List MongoStaffDoc)
    (pid sid : String)
    (h1 : st.patients.find? (fun r => r.patient_id = pid) = none)
    (h2 : db.find? (fun d => d.patient_id = some pid) = none)
    (h3 : st.staff.countP (fun r => r.staff_id = sid) = 0)
    (h4 : db2.find? (fun d => d.staff_id = some sid) = none) :
    delete_patient st pid = (.notFound, st) ∧
    mongoDeletePatient db pid = (.notFound, db) ∧
    delete_staff st sid = (.deleted 0, st) ∧
    mongoDeleteStaff db2 sid = (.deleted 0, db2) := by
  refine ⟨?_, ?_, ?_, ?_⟩
  · unfold delete_patient
    rw [h1]
  · unfold mongoDeletePatient
    rw [h2]
  · unfold delete_staff
    have hall : ∀ r ∈ st.staff, ¬(r.staff_id = sid) := fun r hr => by
      simpa using List.countP_eq_zero.mp h3 r hr
    have hfilter : st.staff.filter (fun r => r.staff_id ≠ sid) = st.staff :=
      List.filter_eq_self.mpr (fun r hr => by
        simpa using hall r hr)
    rw [h3, hfilter]
  · unfold mongoDeleteStaff
    rw [h4]

/-- C10 witness: the theorem applied to the empty databases. -/
theorem c10_delete_not_found_inconsistent_witness :
    delete_patient emptyState "PAT-x" = (.notFound, emptyState) ∧
    mongoDeletePatient [] "PAT-x" = (.notFound, []) ∧
    delete_staff emptyState "STF-x" = (.deleted 0, emptyState) ∧
    mongoDeleteStaff [] "STF-x" = (.deleted 0, []) :=
  c10_delete_not_found_inconsistent emptyState [] [] "PAT-x" "STF-x"
    rfl rfl rfl rfl

/-- The pydantic `StaffIn` model of `src/api/main.py`: required
`staff_name`, optional enum-typed `role` and `service`. -/
structure StaffIn where
  staff_name : String
  role : Option StaffRole
  service : Option ServiceType
deriving DecidableEq, Repr

/-- The staff row written by `create_staff` and `update_staff` in
`src/api/main.py`: `role_value = payload.role.value if payload.role
else None`, likewise for `service` — enum fields are stored as their
canonical `.value` strings. -/
def staffRowOf (sid : String) (q : StaffIn) : StaffRow :=
  { staff_id := sid, staff_name := q.staff_name,
    role := q.role.map (fun r => r.value),
    service := q.service.map (fun v => v.value) }

/-- Route handler `POST /staff` of `src/api/main.py`: generate the key,
convert the enums to their `.value` strings, INSERT the row. -/
def create_staff (st : MySQLState) (sid : String) (q : StaffIn) :
    ApiResult × MySQLState :=
  (.created sid, { st with staff := st.staff ++ [staffRowOf sid q] })

/-- Route handler `PUT /staff/{staff_id}` of `src/api/main.py`: convert
the enums to their `.value` strings and issue the full-replace UPDATE
(no existence check; the affected count is returned). -/
def update_staff (st : MySQLState) (sid : String) (q : StaffIn) :
    ApiResult × MySQLState :=
  let rows := st.staff.map
    (fun r => if r.staff_id = sid then staffRowOf sid q else r)
  (.updated (st.staff.countP (fun r => r.staff_id = sid)),
   { st with staff := rows })

/-- Whether the enum-valued columns of a stored staff row hold canonical
enum strings (or NULL). -/
def staffRowEnumsCanonical (r : StaffRow) : Bool :=
  (match r.role with
   | some s => roleValues.contains s | none => true) &&
  (match r.service with
   | some s => serviceValues.contains s | none => true)

/-- C9 counterexample: the canonical role string for the admin member is
"ADMIN", not "admin", and the canonical service string for the front
desk is "FRONT DESK", not "front_desk" — the accepted string sets differ
from the claimed ones. -/
theorem c9_counterexample_enum_values :
    parseStaffRole "admin" = none ∧
    parseStaffRole "ADMIN" = some .admin ∧
    parseServiceType "front_desk" = none ∧
    parseServiceType "FRONT DESK" = some .front_desk := by
  decide

/-- C9 amended: the role field is enumerated over exactly
\x7bdoctor, nurse, nursing_assistant, ADMIN\x7d and the service label over
exactly \x7bemergency, surgery, general_medicine, ICU, FRONT DESK\x7d, and
every enum-valued field written by a staff create, full replace, or
patch is normalized to the member's canonical `.value` string: the row
stored by `create_staff`, the row written over each matched key by
`update_staff`, and every assignment compiled by `patch_staff` all carry
canonical enum strings. -/
theorem c9_amended_enums_and_normalization (s t : String) (p : StaffPatch)
    (st : MySQLState) (sid : String) (q : StaffIn) :
    ((parseStaffRole s).isSome = true ↔ s ∈ roleValues) ∧
    ((parseServiceType t).isSome = true ↔ t ∈ serviceValues) ∧
    updatesCanonical (staffPatchUpdates p) = true ∧
    (create_staff st sid q).2.staff = st.staff ++ [staffRowOf sid q] ∧
    (update_staff st sid q).2.staff = st.staff.map (fun r =>
      if r.staff_id = sid then staffRowOf sid q else r) ∧
    staffRowEnumsCanonical (staffRowOf sid q) = true := by
  have hrole : ∀ r : StaffRole, r.value ∈ roleValues := by
    intro r
    cases r <;> decide
  have hsvc : ∀ v : ServiceType, v.value ∈ serviceValues := by
    intro v
    cases v <;> decide
  refine ⟨?_, ?_, ?_, rfl, rfl, ?_⟩
  · unfold parseStaffRole roleValues
    split_ifs with h1 h2 h3 h4 <;> simp_all
  · unfold parseServiceType serviceValues
    split_ifs with h1 h2 h3 h4 h5 <;> simp_all
  · rcases p with ⟨n, r, v⟩
    rcases n with _ | ⟨_ | n⟩ <;> rcases r with _ | ⟨_ | r⟩ <;>
      rcases v with _ | ⟨_ | v⟩ <;>
        simp [staffPatchUpdates, updatesCanonical, hrole, hsvc]
  · rcases q with ⟨n, r, v⟩
    rcases r with _ | r <;> rcases v with _ | v <;>
      simp [staffRowEnumsCanonical, staffRowOf, hrole, hsvc]

end PredictionPipeline
